import Mathlib

/-!
Verification development for the TeleNotif notification server.

The definitions below are a shallow embedding of the Python
sources:

* `telegrify/utils/escape.py` — escaping and sanitisation functions;
* `telenotif/core/config.py` — configuration records and
  `EndpointConfig.get_chat_ids`;
* `telegrify/server/routes.py` — the notification endpoint handler
  (field resolution, destination selection, message composition, keyboard
  construction, fan-out) and the webhook handler (callback and command
  dispatch).

JSON payloads are modelled by the inductive `JVal`; Python dictionaries are
association lists (keys are assumed unique, as produced by a JSON parser).
Python exceptions are modelled by `Except String`: an `error` value stands
for a raised exception carrying the exception kind.  External collaborators
(the Jinja2 renderer, the HTTP calls of the Telegram client, formatter plugins,
the side-channel HTTP POST) are oracle parameters: arbitrary total or
`Except`-valued functions the theorems quantify over.
-/

namespace TeleNotif

/-- A JSON value, as produced by parsing an inbound request body.
Numbers are modelled as integers (no claim involves fractional values). -/
inductive JVal where
  | null : JVal
  | bool : Bool → JVal
  | num : Int → JVal
  | str : String → JVal
  | arr : List JVal → JVal
  | obj : List (String × JVal) → JVal

/-- First-match association-list lookup, the model of Python `dict` access
(keys produced by a JSON parser are unique). -/
def lookup : List (String × JVal) → String → Option JVal
  | [], _ => none
  | (k, v) :: rest, key => if k = key then some v else lookup rest key

/-- Association-list lookup for string-valued maps (`field_map`, the
template table). -/
def lookupS : List (String × String) → String → Option String
  | [], _ => none
  | (k, v) :: rest, key => if k = key then some v else lookupS rest key

/-- Python `d.get(k)`: the stored value, or `None` when the key is absent. -/
def pyGet (kvs : List (String × JVal)) (k : String) : JVal :=
  match lookup kvs k with
  | some v => v
  | none => JVal.null

/-- Python `d.get(k, default)`: the stored value, or `default` when the key
is absent (a stored `None` is returned as is). -/
def pyGetD (kvs : List (String × JVal)) (k : String) (dflt : JVal) : JVal :=
  match lookup kvs k with
  | some v => v
  | none => dflt

/-- Python truthiness of a JSON value: `None`, `False`, `0`, the empty
string, the empty list and the empty dict are falsy. -/
def jtruthy : JVal → Bool
  | JVal.null => false
  | JVal.bool b => b
  | JVal.num n => n != 0
  | JVal.str s => s ≠ ""
  | JVal.arr l => !l.isEmpty
  | JVal.obj l => !l.isEmpty

/-- Python truthiness of an `Optional[str]` field: `None` and `""` are
falsy. -/
def struthy : Option String → Bool
  | some s => s ≠ ""
  | none => false

/-! ### Python string helpers

The built-in `String.splitOn`/`String.split` are defined by well-founded
recursion and do not reduce inside the kernel, so the Python string
operations the handlers use are modelled at the character level. -/

/-- Split a character list at every character satisfying `p`, keeping empty
groups — the behaviour of Python `str.split(sep)` for a one-character
separator (with `p` testing for that separator). -/
def splitChP (p : Char → Bool) : List Char → List (List Char)
  | [] => [[]]
  | c :: rest =>
    let r := splitChP p rest
    if p c then [] :: r
    else
      match r with
      | [] => [[c]]
      | g :: gs => (c :: g) :: gs

/-- Python `s.split(".")`. -/
def splitOnDot (s : String) : List String :=
  (splitChP (fun c => c == Char.ofNat 46) s.toList).map String.mk

/-- Whether `pat` is an initial segment of `l`. -/
def isPrefixL : List Char → List Char → Bool
  | [], _ => true
  | _ :: _, [] => false
  | a :: as, b :: bs => a == b && isPrefixL as bs

/-- Whether `pat` occurs as a contiguous segment of `l` — Python
`pat in s` on strings. -/
def containsSub (pat : List Char) : List Char → Bool
  | [] => isPrefixL pat []
  | c :: rest => isPrefixL pat (c :: rest) || containsSub pat rest

/-! ### Field resolver (`routes.py`, `get_field`, lines 67-79) -/

/-- The dotted-path walk inside `get_field`: starting from `value = payload`,
for each path segment, if the current value is a dict take `value.get(key)`
(`None` when absent), otherwise return the default (modelled as `none`).
The final value is returned as `some`. -/
def field_walk : JVal → List String → Option JVal
  | v, [] => some v
  | v, k :: rest =>
    match v with
    | JVal.obj kvs => field_walk (pyGet kvs k) rest
    | _ => none

/-- `get_field` from `routes.py`: when `field_map` holds a truthy (non-empty)
entry for `field`, split it on `.` and walk the payload, returning the
default when the walk bails out or ends on `None`; otherwise a direct
top-level `payload.get(field, default)`. -/
def get_field (field_map : List (String × String)) (payload : List (String × JVal))
    (field : String) (dflt : JVal) : JVal :=
  match lookupS field_map field with
  | some mapped =>
    if mapped = "" then pyGetD payload field dflt
    else
      match field_walk (JVal.obj payload) (splitOnDot mapped) with
      | some v =>
        match v with
        | JVal.null => dflt
        | _ => v
      | none => dflt
  | none => pyGetD payload field dflt

/-- The walk-failure condition exactly as the spec words it (§4.1): some
segment is absent, or some intermediate value is not a mapping. -/
def spec_walk_absent : JVal → List String → Bool
  | _, [] => false
  | v, k :: rest =>
    match v with
    | JVal.obj kvs =>
      match lookup kvs k with
      | some w => spec_walk_absent w rest
      | none => true
    | _ => true

/-! ### Destination configuration (`config.py`, `EndpointConfig.get_chat_ids`,
lines 84-89) -/

/-- `EndpointConfig.get_chat_ids`: a copy of `chat_ids`, with the singular
`chat_id` inserted at position 0 when it is truthy (non-`None`, non-empty). -/
def get_chat_ids (chat_id : Option String) (chat_ids : List String) : List String :=
  match chat_id with
  | some c => if c = "" then chat_ids else c :: chat_ids
  | none => chat_ids

/-! ### Escaping (`escape.py`) -/

/-- The MarkdownV2 special characters of `escape.py` (also the character
class of the substitution regex in `escape_markdown_v2`). -/
def MARKDOWNV2_SPECIAL_CHARS : List Char :=
  ['_', '*', '[', ']', '(', ')', '~', Char.ofNat 96,
   '>', '#', '+', '-', '=', '|', Char.ofNat 123, Char.ofNat 125, '.', '!']

/-- The legacy Markdown special characters of `escape.py`. -/
def MARKDOWN_SPECIAL_CHARS : List Char :=
  ['_', '*', Char.ofNat 96, '[']

/-- Character-wise action of the `re.sub` in `escape_markdown_v2`: each
special character is replaced by a backslash followed by itself. -/
def mdv2EscapeList : List Char → List Char
  | [] => []
  | c :: rest =>
    if c ∈ MARKDOWNV2_SPECIAL_CHARS then Char.ofNat 92 :: c :: mdv2EscapeList rest
    else c :: mdv2EscapeList rest

/-- `escape_markdown_v2` from `escape.py` (string inputs): empty input maps
to the empty string, every MarkdownV2 special character is prefixed with a
backslash. -/
def escape_markdown_v2 (text : String) : String :=
  if text = "" then "" else String.mk (mdv2EscapeList text.toList)

/-- Character-wise action of the `re.sub` in `escape_markdown`. -/
def mdEscapeList : List Char → List Char
  | [] => []
  | c :: rest =>
    if c ∈ MARKDOWN_SPECIAL_CHARS then Char.ofNat 92 :: c :: mdEscapeList rest
    else c :: mdEscapeList rest

/-- `escape_markdown` from `escape.py` (string inputs). -/
def escape_markdown (text : String) : String :=
  if text = "" then "" else String.mk (mdEscapeList text.toList)

/-- `escape_for_html` from `escape.py`: `&` first, then `<`, then `>`. -/
def escape_for_html (text : String) : String :=
  if text = "" then ""
  else ((text.replace "&" "&amp;").replace "<" "&lt;").replace ">" "&gt;"

/-- `sanitize_text` from `escape.py` (string inputs): choose the escaping
function by parse mode; any other parse mode (including `None` and
non-string values) leaves the text unchanged. The parse mode is a `JVal`
because the handler resolves it from the payload. -/
def sanitize_text (text : String) (parse_mode : JVal) : String :=
  if text = "" then ""
  else
    match parse_mode with
    | JVal.str m =>
      if m = "MarkdownV2" then escape_markdown_v2 text
      else if m = "Markdown" then escape_markdown text
      else if m = "HTML" then escape_for_html text
      else text
    | _ => text

/-! ### Configuration records (`config.py`) -/

/-- `ButtonConfig`: text is required; `url` and `callback_data` are optional
template strings. -/
structure ButtonConfig where
  text : String
  url : Option String
  callback_data : Option String

/-- `EndpointConfig` (the fields the handler reads; `path` and the
validators are not needed by the logic of any claim). -/
structure EndpointConfig where
  chat_id : Option String
  chat_ids : List String
  formatter : String
  template : Option String
  parse_mode : Option String
  plugin_config : List (String × JVal)
  field_map : List (String × String)
  buttons : List (List ButtonConfig)

/-- `CallbackConfig`: exact callback data to match, optional response text,
optional forwarding URL. -/
structure CallbackConfig where
  data : String
  response : Option String
  url : Option String

/-- `CommandConfig`: exact command token to match, optional response
template, optional parse mode, optional button grid. -/
structure CommandConfig where
  command : String
  response : Option String
  parse_mode : Option String
  buttons : List (List ButtonConfig)

/-! ### Keyboard builder (`routes.py`, `build_inline_keyboard`, lines 17-39) -/

/-- One button of `build_inline_keyboard`: render the text (raw when the
context is falsy, i.e. empty), then attach `url` when truthy, else
`callback_data` when truthy (`elif`: URL takes precedence). `render` is the
Jinja2 oracle. -/
def render_button (render : String → List (String × JVal) → String)
    (ctx : List (String × JVal)) (b : ButtonConfig) : JVal :=
  let rend := fun (s : String) => if ctx.isEmpty then s else render s ctx
  JVal.obj (("text", JVal.str (rend b.text)) ::
    (if struthy b.url then [("url", JVal.str (rend (b.url.getD "")))]
     else if struthy b.callback_data then
       [("callback_data", JVal.str (rend (b.callback_data.getD "")))]
     else []))

/-- The row/column loops of `build_inline_keyboard`, accumulating rows in
order. -/
def build_rows (render : String → List (String × JVal) → String)
    (ctx : List (String × JVal)) : List (List ButtonConfig) → List JVal
  | [] => []
  | row :: rest =>
    JVal.arr (row.map (render_button render ctx)) :: build_rows render ctx rest

/-- `build_inline_keyboard`: `None` for an empty (falsy) row list, otherwise
an `inline_keyboard` object whose rows follow the configured order. -/
def build_inline_keyboard (render : String → List (String × JVal) → String)
    (buttons : List (List ButtonConfig)) (ctx : List (String × JVal)) : Option JVal :=
  if buttons.isEmpty then none
  else some (JVal.obj [("inline_keyboard", JVal.arr (build_rows render ctx buttons))])

/-! ### Destination selection (`routes.py`, handler lines 94-106) -/

/-- The Python value bound to `target_chat_ids`: either an actual Python
list (the `[payload_chat_id]` singleton, or the configured ids), or the raw
payload value of `chat_ids`. -/
inductive Targets where
  | pyList : List JVal → Targets
  | pyVal : JVal → Targets

/-- Handler lines 94-103: payload `chat_ids` wins when truthy, else payload
`chat_id` when truthy (wrapped in a singleton list), else the configured
`get_chat_ids` (strings). -/
def select_targets (cfg : EndpointConfig) (payload : List (String × JVal)) : Targets :=
  let payload_chat_id := get_field cfg.field_map payload "chat_id" JVal.null
  let payload_chat_ids := get_field cfg.field_map payload "chat_ids" (JVal.arr [])
  if jtruthy payload_chat_ids then Targets.pyVal payload_chat_ids
  else if jtruthy payload_chat_id then Targets.pyList [payload_chat_id]
  else Targets.pyList ((get_chat_ids cfg.chat_id cfg.chat_ids).map JVal.str)

/-- Python `not target_chat_ids` (handler line 105). -/
def targets_falsy : Targets → Bool
  | Targets.pyList l => l.isEmpty
  | Targets.pyVal v => !(jtruthy v)

/-- Iterating `target_chat_ids` in the `for` loop: lists yield elements,
strings yield one-character strings, dicts yield their keys, other scalars
raise `TypeError`. -/
def targets_iter : Targets → Except String (List JVal)
  | Targets.pyList l => Except.ok l
  | Targets.pyVal (JVal.arr l) => Except.ok l
  | Targets.pyVal (JVal.str s) =>
    Except.ok (s.toList.map (fun c => JVal.str (String.mk [c])))
  | Targets.pyVal (JVal.obj kvs) => Except.ok (kvs.map (fun kv => JVal.str kv.fst))
  | Targets.pyVal _ => Except.error "TypeError"

/-! ### Message composition (`routes.py`, handler lines 108-127) -/

/-- A registered formatter object: `isPlugin` models `isinstance(formatter,
IPlugin)`; the two `format` shapes are oracle functions. (The `labels`
attribute assignment at lines 121-122 has no observable effect in the
scope of the claims and is omitted.) -/
structure Formatter where
  isPlugin : Bool
  formatPlain : List (String × JVal) → String
  formatPlugin : List (String × JVal) → List (String × JVal) → String

/-- Handler line 109: `get_field(payload, "parse_mode") or
endpoint_config.parse_mode`. -/
def resolve_parse_mode (cfg : EndpointConfig) (payload : List (String × JVal)) : JVal :=
  let g := get_field cfg.field_map payload "parse_mode" JVal.null
  if jtruthy g then g
  else
    match cfg.parse_mode with
    | some s => JVal.str s
    | none => JVal.null

/-- Handler lines 111-127: a truthy configured template name that exists in
the template table is rendered against the payload; otherwise the formatter
is looked up (`formatter_not_found` on absence) and invoked with the plugin
config exactly when it is a plugin. No sanitisation happens here (see
`compose_body_spec`). -/
def compose_message (cfg : EndpointConfig) (templates : List (String × String))
    (getFormatter : String → Option Formatter)
    (render : String → List (String × JVal) → String)
    (payload : List (String × JVal)) : Except String String :=
  let formatter_path : Except String String :=
    match getFormatter cfg.formatter with
    | none => Except.error "formatter_not_found"
    | some f =>
      Except.ok (if f.isPlugin then f.formatPlugin payload cfg.plugin_config
                 else f.formatPlain payload)
  match cfg.template with
  | some t =>
    if t = "" then formatter_path
    else
      match lookupS templates t with
      | some tstr => Except.ok (render tstr payload)
      | none => formatter_path
  | none => formatter_path

/-- Whether the handler takes the template branch: the configured template
name is truthy and present in the template table. -/
def template_selected (cfg : EndpointConfig) (templates : List (String × String)) : Bool :=
  match cfg.template with
  | some t => t ≠ "" && (lookupS templates t).isSome
  | none => false

/-- Modelled from the spec: the parse-mode sanitisation of the composed
body happens in the Telegram client (`telegrify/core/bot.py`), which is not
among the available source files. Per spec §4.2, the body actually delivered
is the `sanitize_text` image of the formatter output on the plugin-formatter
path, and the raw rendered template on the template path ("templates are
assumed pre-escaped by their authors"). The branch structure is the one of
`compose_message`. -/
def compose_body_spec (cfg : EndpointConfig) (templates : List (String × String))
    (getFormatter : String → Option Formatter)
    (render : String → List (String × JVal) → String)
    (payload : List (String × JVal)) (pm : JVal) : Except String String :=
  let formatter_path : Except String String :=
    match getFormatter cfg.formatter with
    | none => Except.error "formatter_not_found"
    | some f =>
      Except.ok (sanitize_text
        (if f.isPlugin then f.formatPlugin payload cfg.plugin_config
         else f.formatPlain payload) pm)
  match cfg.template with
  | some t =>
    if t = "" then formatter_path
    else
      match lookupS templates t with
      | some tstr => Except.ok (render tstr payload)
      | none => formatter_path
  | none => formatter_path

/-! ### Fan-out (`routes.py`, handler lines 129-173) -/

/-- The Telegram client: three delivery oracles, each returning the decoded
API response or raising. -/
structure Bot where
  send_message : JVal → String → JVal → Option JVal → Except String JVal
  send_photo : JVal → JVal → String → JVal → Except String JVal
  send_media_group : JVal → JVal → String → JVal → Except String JVal

/-- Handler line 160: extract the delivered message id from the API
response. The `isinstance(..., dict)` branch reads `result["message_id"]`
via `.get`; otherwise the first element of `result.get("result", [{}])` is
read, which raises on an empty list or non-subscriptable shapes. -/
def extract_message_id (response : JVal) : Except String JVal :=
  match response with
  | JVal.obj kvs =>
    match lookup kvs "result" with
    | some (JVal.obj rkvs) => Except.ok (pyGet rkvs "message_id")
    | some (JVal.arr (x :: _)) =>
      match x with
      | JVal.obj xkvs => Except.ok (pyGet xkvs "message_id")
      | _ => Except.error "AttributeError"
    | some (JVal.arr []) => Except.error "IndexError"
    | some _ => Except.error "TypeError"
    | none => Except.ok JVal.null
  | _ => Except.error "AttributeError"

/-- The delivery-shape choice of loop lines 138-158: photo group when
`image_urls` is truthy, else single photo when `image_url` is truthy, else
plain text with the optional keyboard. -/
def send_one (bot : Bot) (image_urls image_url : JVal) (text : String)
    (pm : JVal) (reply_markup : Option JVal) (chat : JVal) : Except String JVal :=
  if jtruthy image_urls then bot.send_media_group chat image_urls text pm
  else if jtruthy image_url then bot.send_photo chat image_url text pm
  else bot.send_message chat text pm reply_markup

/-- One loop iteration: deliver, then extract the message id; the produced
results entry is `(chat_id, message_id)`. -/
def send_step (bot : Bot) (image_urls image_url : JVal) (text : String)
    (pm : JVal) (reply_markup : Option JVal) (chat : JVal) :
    Except String (JVal × JVal) :=
  match send_one bot image_urls image_url text pm reply_markup chat with
  | Except.error e => Except.error e
  | Except.ok r =>
    match extract_message_id r with
    | Except.error e => Except.error e
    | Except.ok m => Except.ok (chat, m)

/-- The fan-out loop (lines 136-162): destinations attempted strictly in
order; the first raising step aborts the rest. The first component records
which destinations were attempted, in order. -/
def send_loop (step : JVal → Except String (JVal × JVal)) :
    List JVal → List JVal × Except String (List (JVal × JVal))
  | [] => ([], Except.ok [])
  | c :: rest =>
    match step c with
    | Except.error e => ([c], Except.error e)
    | Except.ok entry =>
      match send_loop step rest with
      | (att, Except.ok l) => (c :: att, Except.ok (entry :: l))
      | (att, Except.error e) => (c :: att, Except.error e)

/-- The HTTP response of the notification handler. -/
inductive Response where
  | sent : List (JVal × JVal) → Response
  | failure : Nat → String → Response

/-- The observable outcome of the handler: the response plus the ordered list of
destinations a delivery was attempted for. -/
structure HandlerOut where
  resp : Response
  sends : List JVal

/-- Lines 164-173: a completed loop answers `sent` with the results; a
raising loop is caught and answered as `500 send_failed` (results of the
destinations already delivered are dropped). -/
def dispatch (step : JVal → Except String (JVal × JVal)) (dests : List JVal) :
    HandlerOut :=
  match send_loop step dests with
  | (att, Except.ok l) => HandlerOut.mk (Response.sent l) att
  | (att, Except.error _) => HandlerOut.mk (Response.failure 500 "send_failed") att

/-- The notification handler body (lines 93-173, after the API-key check):
resolve destinations, fail fast with `400 no_chat_id` on an empty resolved
list, resolve the parse mode, compose the message (`500
formatter_not_found` on a missing formatter), read the image fields, build
the keyboard, then fan out. A `TypeError` when iterating a non-iterable
payload destination value is caught as `500 send_failed` before any
delivery. -/
def handler (cfg : EndpointConfig) (templates : List (String × String))
    (getFormatter : String → Option Formatter)
    (render : String → List (String × JVal) → String)
    (bot : Bot) (payload : List (String × JVal)) : HandlerOut :=
  let targets := select_targets cfg payload
  if targets_falsy targets then
    HandlerOut.mk (Response.failure 400 "no_chat_id") []
  else
    let pm := resolve_parse_mode cfg payload
    match compose_message cfg templates getFormatter render payload with
    | Except.error _ => HandlerOut.mk (Response.failure 500 "formatter_not_found") []
    | Except.ok msg =>
      let image_url := get_field cfg.field_map payload "image_url" JVal.null
      let image_urls := get_field cfg.field_map payload "image_urls" (JVal.arr [])
      let reply_markup := build_inline_keyboard render cfg.buttons payload
      match targets_iter targets with
      | Except.error _ => HandlerOut.mk (Response.failure 500 "send_failed") []
      | Except.ok tlist =>
        dispatch (send_step bot image_urls image_url msg pm reply_markup) tlist

/-! ### Webhook router (`routes.py`, `webhook_handler`, lines 179-255) -/

/-- An external effect the webhook handler performs, in program order. -/
inductive Action where
  | answer : JVal → Option String → Action
  | post : String → JVal → Action
  | send : String → String → Option String → Option JVal → Action

/-- Python `str()` of a chat id. Scalars are rendered exactly; container
reprs are Python-specific formatting no claim depends on, rendered here as a
fixed tag. -/
def pyStr : JVal → String
  | JVal.str s => s
  | JVal.num n => toString n
  | JVal.bool true => "True"
  | JVal.bool false => "False"
  | JVal.null => "None"
  | JVal.arr _ => "<list>"
  | JVal.obj _ => "<dict>"

/-- Line 222: the first whitespace-delimited token of the text (Python
`text.split()` drops empty groups), with any `@botname` suffix stripped. -/
def extract_command (s : String) : String :=
  let tok :=
    ((splitChP Char.isWhitespace s.toList).filter (fun t => !t.isEmpty)).headD []
  String.mk ((splitChP (fun c => c == Char.ofNat 64) tok).headD [])

/-- The actions of a matched callback handler (lines 200-208): answer the
callback with the response of the handler, then, when the forwarding URL is
truthy, POST `callback_data`, `user` and `message` to it. -/
def callback_hit (h : CallbackConfig) (cid data user msg : JVal) : List Action :=
  Action.answer cid h.response ::
    (match h.url with
     | some u =>
       if u = "" then []
       else [Action.post u (JVal.obj
         [("callback_data", data), ("user", user), ("message", msg)])]
     | none => [])

/-- Python `handler.data == callback_data`: a configured string only ever
equals a string value. -/
def data_matches (h : CallbackConfig) : JVal → Bool
  | JVal.str s => s == h.data
  | _ => false

/-- The `for ... else` scan over configured callback handlers (lines
198-211): first exact `data` match wins; no match falls through to an empty
acknowledgement. -/
def callback_loop (cid data user msg : JVal) : List CallbackConfig → List Action
  | [] => [Action.answer cid none]
  | h :: rest =>
    if data_matches h data then callback_hit h cid data user msg
    else callback_loop cid data user msg rest

/-- The callback branch (lines 189-211): `callback["id"]` raises on a
non-dict callback or a missing id; `data`, `from` and `message` are read
with `.get` defaults; a non-dict `from` raises at the logging access
`user.get("id")` before the scan. -/
def callback_branch (callbacks : List CallbackConfig) (cb : JVal) :
    Except String (List Action) :=
  match cb with
  | JVal.obj kvs =>
    match lookup kvs "id" with
    | none => Except.error "KeyError"
    | some cid =>
      let data := pyGetD kvs "data" (JVal.str "")
      let user := pyGetD kvs "from" (JVal.obj [])
      match user with
      | JVal.obj _ =>
        Except.ok (callback_loop cid data user (pyGetD kvs "message" (JVal.obj []))
          callbacks)
      | _ => Except.error "AttributeError"
  | _ => Except.error "TypeError"

/-- The actions of a matched command handler (lines 226-246): when the
configured response is truthy, render it against the derived context; when
the rendered text is truthy, send it with the parse mode of the handler and the
keyboard built from its (truthy) button grid against the same context. -/
def command_hit (render : String → List (String × JVal) → String)
    (h : CommandConfig) (cmd chat_id : String) (ukvs : List (String × JVal)) :
    List Action :=
  let context : List (String × JVal) :=
    [("user", JVal.obj ukvs), ("chat_id", JVal.str chat_id),
     ("first_name", pyGetD ukvs "first_name" (JVal.str "")),
     ("username", pyGetD ukvs "username" (JVal.str "")),
     ("command", JVal.str cmd)]
  match h.response with
  | none => []
  | some r =>
    if r = "" then []
    else
      let rt := render r context
      if rt = "" then []
      else
        [Action.send chat_id rt h.parse_mode
          (if h.buttons.isEmpty then none
           else build_inline_keyboard render h.buttons context)]

/-- The scan over configured command handlers (lines 225-246): first exact
token match wins; no match is a silent no-op. -/
def command_loop (render : String → List (String × JVal) → String)
    (cmd chat_id : String) (ukvs : List (String × JVal)) :
    List CommandConfig → List Action
  | [] => []
  | h :: rest =>
    if h.command = cmd then command_hit render h cmd chat_id ukvs
    else command_loop render cmd chat_id ukvs rest

/-- The message branch (lines 214-246): `message["chat"]["id"]` raises on
missing keys or non-dict shapes; a present non-string `text` raises at
`text.startswith`; text not beginning with `/` is a no-op; otherwise the
command token is extracted and dispatched (a non-dict `from` raises at the
logging access before the scan). -/
def message_branch (render : String → List (String × JVal) → String)
    (commands : List CommandConfig) (msg : JVal) : Except String (List Action) :=
  match msg with
  | JVal.obj kvs =>
    match lookup kvs "chat" with
    | none => Except.error "KeyError"
    | some (JVal.obj ckvs) =>
      match lookup ckvs "id" with
      | none => Except.error "KeyError"
      | some cidv =>
        let chat_id := pyStr cidv
        let user := pyGetD kvs "from" (JVal.obj [])
        match pyGetD kvs "text" (JVal.str "") with
        | JVal.str s =>
          if (match s.toList with | c :: _ => c == Char.ofNat 47 | [] => false) then
            match user with
            | JVal.obj ukvs =>
              Except.ok (command_loop render (extract_command s) chat_id ukvs commands)
            | _ => Except.error "AttributeError"
          else Except.ok []
        | _ => Except.error "AttributeError"
    | some _ => Except.error "TypeError"
  | _ => Except.error "TypeError"

/-- Python `pat in s` for strings (substring test). -/
def strContains (hay pat : String) : Bool := containsSub pat.toList hay.toList

/-- Python `"k" in l` for a JSON list (membership by equality with a
string). -/
def strInList (k : String) (l : List JVal) : Bool :=
  l.any (fun v => match v with | JVal.str s => s = k | _ => false)

/-- Classification of the parsed update (lines 189 and 214): a dict is
routed on the presence of `callback_query`, then `message`; the `in`
operator on a string or list tests containment and a hit then raises at the
subscript `update[...]`; `in` on other scalars raises `TypeError`. Neither
key present is an immediate success with no actions. -/
def webhook_process (render : String → List (String × JVal) → String)
    (callbacks : List CallbackConfig) (commands : List CommandConfig)
    (update : JVal) : Except String (List Action) :=
  match update with
  | JVal.obj kvs =>
    match lookup kvs "callback_query" with
    | some cb => callback_branch callbacks cb
    | none =>
      match lookup kvs "message" with
      | some m => message_branch render commands m
      | none => Except.ok []
  | JVal.str s =>
    if strContains s "callback_query" then Except.error "TypeError"
    else if strContains s "message" then Except.error "TypeError"
    else Except.ok []
  | JVal.arr l =>
    if strInList "callback_query" l then Except.error "TypeError"
    else if strInList "message" l then Except.error "TypeError"
    else Except.ok []
  | _ => Except.error "TypeError"

/-- Execute the external calls of the branch in order; the first raising call
aborts the rest. The value returned by the oracle (e.g. the HTTP response of the
side-channel POST) is never inspected by the handler. -/
def run_actions (eff : Action → Except String JVal) : List Action → Except String Unit
  | [] => Except.ok ()
  | a :: rest =>
    match eff a with
    | Except.ok _ => run_actions eff rest
    | Except.error e => Except.error e

/-- The webhook response envelope: `{ok: true}` or `{ok: false, error}`,
both delivered with a transport-success status. -/
inductive WebhookResp where
  | okTrue : WebhookResp
  | okFalse : String → WebhookResp

/-- `webhook_handler` (lines 182-252): parse the body (`body` is the result
of `request.json()`, `error` for malformed JSON), classify and dispatch,
execute the external calls; every raised exception is caught by the
enclosing `try` and reported as `{ok: false, error}`. -/
def webhook_handler (eff : Action → Except String JVal)
    (render : String → List (String × JVal) → String)
    (callbacks : List CallbackConfig) (commands : List CommandConfig)
    (body : Except String JVal) : WebhookResp :=
  match body with
  | Except.error e => WebhookResp.okFalse e
  | Except.ok update =>
    match webhook_process render callbacks commands update with
    | Except.error e => WebhookResp.okFalse e
    | Except.ok actions =>
      match run_actions eff actions with
      | Except.ok _ => WebhookResp.okTrue
      | Except.error e => WebhookResp.okFalse e

/-! ## Theorems -/

/-- Characters counted as MarkdownV2-special, as a Bool predicate. -/
def isMdV2Special (c : Char) : Bool := decide (c ∈ MARKDOWNV2_SPECIAL_CHARS)

theorem mdv2EscapeList_length (l : List Char) :
    (mdv2EscapeList l).length = l.length + l.countP isMdV2Special := by
  induction l with
  | nil => rfl
  | cons c rest ih =>
    by_cases hc : c ∈ MARKDOWNV2_SPECIAL_CHARS
    · simp [mdv2EscapeList, hc, List.countP_cons, ih, isMdV2Special]
      omega
    · simp [mdv2EscapeList, hc, List.countP_cons, ih, isMdV2Special]
      omega

theorem mdv2EscapeList_countP (l : List Char) :
    (mdv2EscapeList l).countP isMdV2Special = l.countP isMdV2Special := by
  induction l with
  | nil => rfl
  | cons c rest ih =>
    by_cases hc : c ∈ MARKDOWNV2_SPECIAL_CHARS
    · have hbs : Char.ofNat 92 ∉ MARKDOWNV2_SPECIAL_CHARS := by decide
      simp [mdv2EscapeList, hc, List.countP_cons, ih, hbs, isMdV2Special]
    · simp [mdv2EscapeList, hc, List.countP_cons, ih, isMdV2Special]

/-- Claim C9: MarkdownV2 escaping is single-pass and not idempotent:
`escape_markdown_v2 "Order #123."` is `"Order \#123\."`, and escaping any
text containing a special character a second time changes it again
(double-escaping), so in particular such a text exists. -/
theorem C9_escape_not_idempotent :
    escape_markdown_v2 "Order #123." = "Order \\#123\\." ∧
    ∀ t : String, 0 < t.toList.countP isMdV2Special →
      escape_markdown_v2 (escape_markdown_v2 t) ≠ escape_markdown_v2 t := by
  constructor
  · decide
  · intro t ht
    have htne : ¬(t = "") := by
      intro h
      rw [h] at ht
      simp at ht
    have e1 : escape_markdown_v2 t = String.mk (mdv2EscapeList t.toList) := by
      simp only [escape_markdown_v2, if_neg htne]
    have hne2 : ¬(String.mk (mdv2EscapeList t.toList) = "") := by
      intro h
      have hdata : mdv2EscapeList t.toList = [] := congrArg String.data h
      have hl := mdv2EscapeList_length t.toList
      rw [hdata] at hl
      simp only [List.length_nil] at hl
      omega
    have e2 : escape_markdown_v2 (escape_markdown_v2 t) =
        String.mk (mdv2EscapeList (mdv2EscapeList t.toList)) := by
      rw [e1]
      simp only [escape_markdown_v2, if_neg hne2]
      rfl
    intro heq
    rw [e2, e1] at heq
    have hdata : mdv2EscapeList (mdv2EscapeList t.toList) = mdv2EscapeList t.toList :=
      congrArg String.data heq
    have hlen := congrArg List.length hdata
    rw [mdv2EscapeList_length (mdv2EscapeList t.toList), mdv2EscapeList_countP] at hlen
    omega

/-- Witness for C9 at the concrete text of the claim. -/
theorem C9_escape_not_idempotent_witness :
    0 < ("Order #123." : String).toList.countP isMdV2Special ∧
    escape_markdown_v2 (escape_markdown_v2 "Order #123.") ≠
      escape_markdown_v2 "Order #123." :=
  ⟨by decide, C9_escape_not_idempotent.2 "Order #123." (by decide)⟩

theorem spec_walk_absent_field_walk (path : List String) :
    ∀ v : JVal, spec_walk_absent v path = true →
      field_walk v path = none ∨ field_walk v path = some JVal.null := by
  induction path with
  | nil =>
    intro v h
    simp [spec_walk_absent] at h
  | cons k rest ih =>
    intro v h
    cases v with
    | obj kvs =>
      cases hl : lookup kvs k with
      | none =>
        simp only [field_walk, pyGet, hl]
        cases rest with
        | nil => right; rfl
        | cons k2 r2 => left; rfl
      | some w =>
        simp only [spec_walk_absent, hl] at h
        simp only [field_walk, pyGet, hl]
        exact ih w h
    | null => left; rfl
    | bool b => left; rfl
    | num n => left; rfl
    | str s => left; rfl
    | arr l => left; rfl

/-- Claim C2 (amended): when the field map holds a non-empty entry for the
logical field, `get_field` splits it on `.` and walks the payload, and
returns the default (without raising) whenever a segment is absent or an
intermediate value is not a mapping; when the field map has no entry, it
falls back to a direct top-level lookup with the same default. (An
empty-string entry also falls back to the direct lookup, which is what
forces the non-emptiness proviso.) -/
theorem C2_get_field_resolution :
    (∀ (fm : List (String × String)) (payload : List (String × JVal))
       (field : String) (dflt : JVal) (mapped : String),
       lookupS fm field = some mapped → mapped ≠ "" →
       spec_walk_absent (JVal.obj payload) (splitOnDot mapped) = true →
       get_field fm payload field dflt = dflt)
    ∧ (∀ (fm : List (String × String)) (payload : List (String × JVal))
       (field : String) (dflt : JVal),
       lookupS fm field = none →
       get_field fm payload field dflt = pyGetD payload field dflt) := by
  constructor
  · intro fm payload field dflt mapped hmap hne habs
    simp only [get_field, hmap, if_neg hne]
    rcases spec_walk_absent_field_walk (splitOnDot mapped) (JVal.obj payload) habs with
      h | h
    · rw [h]
    · rw [h]
  · intro fm payload field dflt hmap
    simp only [get_field, hmap]

/-- Witness for C2 at concrete inputs: a mapped path that dies on a
non-mapping intermediate value, and an unmapped field. -/
theorem C2_get_field_resolution_witness :
    (lookupS [("x", "a.b")] "x" = some "a.b" ∧ "a.b" ≠ "" ∧
     spec_walk_absent (JVal.obj [("a", JVal.num 1)]) (splitOnDot "a.b") = true ∧
     get_field [("x", "a.b")] [("a", JVal.num 1)] "x" JVal.null = JVal.null) ∧
    (lookupS [] "x" = none ∧
     get_field [] [("x", JVal.num 3)] "x" JVal.null =
       pyGetD [("x", JVal.num 3)] "x" JVal.null) :=
  ⟨⟨rfl, by decide, by decide,
    C2_get_field_resolution.1 [("x", "a.b")] [("a", JVal.num 1)] "x" JVal.null
      "a.b" rfl (by decide) (by decide)⟩,
   ⟨rfl, C2_get_field_resolution.2 [] [("x", JVal.num 3)] "x" JVal.null rfl⟩⟩

/-- Counterexample for C2 as frozen: with the field-map entry `""` for
`x`, the claimed walk dies (segment `""` is absent from the payload), so the
claim forces the default; the code instead falls back to the direct lookup
and returns the stored value `7`. -/
theorem C2_counterexample :
    lookupS [("x", "")] "x" = some "" ∧
    spec_walk_absent (JVal.obj [("x", JVal.num 7)]) (splitOnDot "") = true ∧
    get_field [("x", "")] [("x", JVal.num 7)] "x" JVal.null ≠ JVal.null :=
  ⟨rfl, by decide, fun h => JVal.noConfusion h⟩

/-- Claim C7 (amended): a non-empty configured singular `chat_id` is
prepended to the configured `chat_ids` list by `get_chat_ids` (an
empty-string singular id is dropped, which is what forces the non-emptiness
proviso); and whenever the resolved destination value is falsy — in
particular the empty list — the handler answers `400 no_chat_id` with no
delivery attempted. -/
theorem C7_destination_resolution :
    (∀ (c : String) (l : List String), c ≠ "" → get_chat_ids (some c) l = c :: l)
    ∧ (∀ (cfg : EndpointConfig) (templates : List (String × String))
       (getFormatter : String → Option Formatter)
       (render : String → List (String × JVal) → String)
       (bot : Bot) (payload : List (String × JVal)),
       targets_falsy (select_targets cfg payload) = true →
       handler cfg templates getFormatter render bot payload =
         HandlerOut.mk (Response.failure 400 "no_chat_id") []) := by
  constructor
  · intro c l hc
    simp only [get_chat_ids, if_neg hc]
  · intro cfg templates getFormatter render bot payload h
    simp only [handler, h, if_true]

/-- A trivial bot oracle for concrete instantiations. -/
def bot0 : Bot :=
  Bot.mk (fun _ _ _ _ => Except.ok JVal.null) (fun _ _ _ _ => Except.ok JVal.null)
    (fun _ _ _ _ => Except.ok JVal.null)

/-- An identity rendering oracle for concrete instantiations. -/
def render0 : String → List (String × JVal) → String := fun s _ => s

/-- An endpoint configuration with no destinations, for concrete
instantiations. -/
def cfg0 : EndpointConfig :=
  EndpointConfig.mk none [] "plain" none none [] [] []

/-- Witness for C7: the prepend at a concrete non-empty id, and the
`400 no_chat_id` fail-fast on a destination-free configuration. -/
theorem C7_destination_resolution_witness :
    (("c" : String) ≠ "" ∧ get_chat_ids (some "c") ["a"] = ["c", "a"]) ∧
    (targets_falsy (select_targets cfg0 []) = true ∧
     handler cfg0 [] (fun _ => none) render0 bot0 [] =
       HandlerOut.mk (Response.failure 400 "no_chat_id") []) :=
  ⟨⟨by decide, C7_destination_resolution.1 "c" ["a"] (by decide)⟩,
   ⟨rfl, C7_destination_resolution.2 cfg0 [] (fun _ => none) render0 bot0 [] rfl⟩⟩

/-- Counterexample for C7 as frozen: with both `chat_id = ""` and
`chat_ids = ["a"]` configured, `get_chat_ids` does not prepend the singular
id. -/
theorem C7_counterexample : get_chat_ids (some "") ["a"] ≠ "" :: ["a"] := by
  decide

/-- Claim C10 (amended): payload-level destination override, with Python
truthiness in place of mere presence: a truthy payload `chat_ids` value
replaces the configured destinations wholesale; otherwise a truthy payload
`chat_id` replaces them as a one-element list; the configured
`get_chat_ids` destinations are used only when both resolve to falsy
values. -/
theorem C10_payload_override :
    ∀ (cfg : EndpointConfig) (payload : List (String × JVal)),
      (jtruthy (get_field cfg.field_map payload "chat_ids" (JVal.arr [])) = true →
        select_targets cfg payload =
          Targets.pyVal (get_field cfg.field_map payload "chat_ids" (JVal.arr []))) ∧
      (jtruthy (get_field cfg.field_map payload "chat_ids" (JVal.arr [])) = false →
        jtruthy (get_field cfg.field_map payload "chat_id" JVal.null) = true →
        select_targets cfg payload =
          Targets.pyList [get_field cfg.field_map payload "chat_id" JVal.null]) ∧
      (jtruthy (get_field cfg.field_map payload "chat_ids" (JVal.arr [])) = false →
        jtruthy (get_field cfg.field_map payload "chat_id" JVal.null) = false →
        select_targets cfg payload =
          Targets.pyList ((get_chat_ids cfg.chat_id cfg.chat_ids).map JVal.str)) := by
  intro cfg payload
  refine ⟨?_, ?_, ?_⟩
  · intro h1
    simp only [select_targets, h1, if_true]
  · intro h1 h2
    simp only [select_targets, h1, h2, Bool.false_eq_true, if_false, if_true]
  · intro h1 h2
    simp only [select_targets, h1, h2, Bool.false_eq_true, if_false]

/-- Witness for C10: the payload-`chat_ids` override and the
payload-`chat_id` override at concrete inputs. -/
theorem C10_payload_override_witness :
    (jtruthy (get_field cfg0.field_map [("chat_ids", JVal.arr [JVal.str "q"])]
        "chat_ids" (JVal.arr [])) = true ∧
     select_targets cfg0 [("chat_ids", JVal.arr [JVal.str "q"])] =
       Targets.pyVal (JVal.arr [JVal.str "q"])) ∧
    (jtruthy (get_field cfg0.field_map [("chat_id", JVal.str "z")]
        "chat_ids" (JVal.arr [])) = false ∧
     jtruthy (get_field cfg0.field_map [("chat_id", JVal.str "z")]
        "chat_id" JVal.null) = true ∧
     select_targets cfg0 [("chat_id", JVal.str "z")] =
       Targets.pyList [JVal.str "z"]) :=
  ⟨⟨rfl, (C10_payload_override cfg0 [("chat_ids", JVal.arr [JVal.str "q"])]).1 rfl⟩,
   ⟨rfl, rfl,
    (C10_payload_override cfg0 [("chat_id", JVal.str "z")]).2.1 rfl rfl⟩⟩

/-- An endpoint configuration with a singular configured destination, for
the C10 counterexample. -/
def cfgC10 : EndpointConfig :=
  EndpointConfig.mk (some "c") [] "plain" none none [] [] []

/-- Counterexample for C10 as frozen: the payload resolves `chat_id` to the
falsy value `0` (so per the claim that single id should replace the
configured destinations), yet the code falls through to the configured
destination `"c"`. -/
theorem C10_counterexample :
    get_field cfgC10.field_map [("chat_id", JVal.num 0)] "chat_id" JVal.null =
      JVal.num 0 ∧
    select_targets cfgC10 [("chat_id", JVal.num 0)] =
      Targets.pyList [JVal.str "c"] ∧
    Targets.pyList [JVal.str "c"] ≠ Targets.pyList [JVal.num 0] :=
  ⟨rfl, rfl, by simp⟩

theorem build_rows_eq_map (render : String → List (String × JVal) → String)
    (ctx : List (String × JVal)) (bs : List (List ButtonConfig)) :
    build_rows render ctx bs =
      bs.map (fun row => JVal.arr (row.map (render_button render ctx))) := by
  induction bs with
  | nil => rfl
  | cons row rest ih => simp [build_rows, ih]

/-- Claim C8: `build_inline_keyboard` returns no keyboard for an empty row
list; for a non-empty grid it returns a keyboard whose rows, and whose
buttons within each row, appear in exactly the configured row-then-column
order (each button rendered against the context). -/
theorem C8_keyboard_order :
    ∀ (render : String → List (String × JVal) → String)
      (buttons : List (List ButtonConfig)) (ctx : List (String × JVal)),
      (buttons = [] → build_inline_keyboard render buttons ctx = none) ∧
      (buttons ≠ [] → build_inline_keyboard render buttons ctx =
        some (JVal.obj [("inline_keyboard",
          JVal.arr (buttons.map (fun row =>
            JVal.arr (row.map (render_button render ctx)))))])) := by
  intro render buttons ctx
  constructor
  · intro h
    rw [h]
    rfl
  · intro h
    have hne : buttons.isEmpty = false := by
      cases buttons with
      | nil => exact absurd rfl h
      | cons r rs => rfl
    simp only [build_inline_keyboard, hne, Bool.false_eq_true, if_false,
      build_rows_eq_map]

/-- Witness for C8: the empty grid, and the 2×1 grid of spec §8. -/
theorem C8_keyboard_order_witness :
    (([] : List (List ButtonConfig)) = [] ∧
     build_inline_keyboard render0 [] [] = none) ∧
    ([[ButtonConfig.mk "a" none none], [ButtonConfig.mk "b" none none]] ≠
       ([] : List (List ButtonConfig)) ∧
     build_inline_keyboard render0
        [[ButtonConfig.mk "a" none none], [ButtonConfig.mk "b" none none]] [] =
       some (JVal.obj [("inline_keyboard", JVal.arr
         [JVal.arr [render_button render0 [] (ButtonConfig.mk "a" none none)],
          JVal.arr [render_button render0 [] (ButtonConfig.mk "b" none none)]])])) :=
  ⟨⟨rfl, (C8_keyboard_order render0 [] []).1 rfl⟩,
   ⟨by simp,
    (C8_keyboard_order render0
      [[ButtonConfig.mk "a" none none], [ButtonConfig.mk "b" none none]] []).2
      (by simp)⟩⟩

/-- Claim C3: on the composed-and-delivered body (`compose_body_spec`,
modelled from the spec because the delivery-time sanitisation site
`core/bot.py` is not among the source files), the parse-mode sanitizer is
applied on the formatter path and not on the template path: an endpoint
whose configured template is selected delivers the raw rendered template,
while an endpoint on the formatter path delivers the `sanitize_text` image
of the formatter output. -/
theorem C3_sanitizer_paths :
    ∀ (cfg : EndpointConfig) (templates : List (String × String))
      (getFormatter : String → Option Formatter)
      (render : String → List (String × JVal) → String)
      (payload : List (String × JVal)) (pm : JVal) (f : Formatter)
      (t tstr : String),
      (cfg.template = some t → t ≠ "" → lookupS templates t = some tstr →
        compose_body_spec cfg templates getFormatter render payload pm =
          Except.ok (render tstr payload)) ∧
      (template_selected cfg templates = false →
        getFormatter cfg.formatter = some f →
        compose_body_spec cfg templates getFormatter render payload pm =
          Except.ok (sanitize_text
            (if f.isPlugin then f.formatPlugin payload cfg.plugin_config
             else f.formatPlain payload) pm)) := by
  intro cfg templates getFormatter render payload pm f t tstr
  constructor
  · intro hT ht hL
    simp only [compose_body_spec, hT, if_neg ht, hL]
  · intro hsel hF
    simp only [compose_body_spec]
    cases hT : cfg.template with
    | none => simp [hF]
    | some t2 =>
      simp only [template_selected, hT] at hsel
      by_cases ht2 : t2 = ""
      · simp [ht2, hF]
      · have hnone : lookupS templates t2 = none := by
          cases hL : lookupS templates t2 with
          | none => rfl
          | some x => rw [hL] at hsel; simp [ht2] at hsel
        simp [ht2, hnone, hF]

/-- A plain (non-plugin) formatter oracle for concrete instantiations. -/
def fmt0 : Formatter := Formatter.mk false (fun _ => "hi!") (fun _ _ => "hi!")

/-- An endpoint configuration selecting the template `t`, for concrete
instantiations. -/
def cfgT : EndpointConfig :=
  EndpointConfig.mk none [] "plain" (some "t") none [] [] []

/-- Witness for C3: the template path delivers the raw render; the
formatter path delivers the sanitized formatter output (here under
MarkdownV2, where `"hi!"` becomes `"hi\!"`). -/
theorem C3_sanitizer_paths_witness :
    (cfgT.template = some "t" ∧ ("t" : String) ≠ "" ∧
     lookupS [("t", "Hello.")] "t" = some "Hello." ∧
     compose_body_spec cfgT [("t", "Hello.")] (fun _ => some fmt0) render0 []
        (JVal.str "MarkdownV2") = Except.ok (render0 "Hello." [])) ∧
    (template_selected cfg0 [] = false ∧
     compose_body_spec cfg0 [] (fun _ => some fmt0) render0 []
        (JVal.str "MarkdownV2") =
       Except.ok (sanitize_text "hi!" (JVal.str "MarkdownV2"))) :=
  ⟨⟨rfl, by decide, rfl,
    (C3_sanitizer_paths cfgT [("t", "Hello.")] (fun _ => some fmt0) render0 []
      (JVal.str "MarkdownV2") fmt0 "t" "Hello.").1 rfl (by decide) rfl⟩,
   ⟨rfl,
    (C3_sanitizer_paths cfg0 [] (fun _ => some fmt0) render0 []
      (JVal.str "MarkdownV2") fmt0 "t" "Hello.").2 rfl rfl⟩⟩

theorem send_loop_all_ok (step : JVal → Except String (JVal × JVal))
    (m : JVal → JVal) :
    ∀ dests : List JVal, (∀ c ∈ dests, step c = Except.ok (c, m c)) →
      send_loop step dests = (dests, Except.ok (dests.map (fun c => (c, m c)))) := by
  intro dests
  induction dests with
  | nil => intro h; rfl
  | cons c rest ih =>
    intro h
    have hc := h c (List.mem_cons_self c rest)
    have hrest : ∀ x ∈ rest, step x = Except.ok (x, m x) :=
      fun x hx => h x (List.mem_cons_of_mem c hx)
    simp only [send_loop, hc, ih hrest, List.map_cons]

theorem send_loop_first_error (step : JVal → Except String (JVal × JVal))
    (m : JVal → JVal) :
    ∀ (pre : List JVal) (d : JVal) (post : List JVal) (e : String),
      (∀ c ∈ pre, step c = Except.ok (c, m c)) → step d = Except.error e →
      send_loop step (pre ++ d :: post) = (pre ++ [d], Except.error e) := by
  intro pre
  induction pre with
  | nil =>
    intro d post e hpre hd
    simp only [List.nil_append, send_loop, hd]
  | cons c rest ih =>
    intro d post e hpre hd
    have hc := hpre c (List.mem_cons_self c rest)
    have hrest : ∀ x ∈ rest, step x = Except.ok (x, m x) :=
      fun x hx => hpre x (List.mem_cons_of_mem c hx)
    simp only [List.cons_append, send_loop, hc, List.append_eq]
    rw [ih d post e hrest hd]

/-- Claim C1: the dispatch loop attempts deliveries one at a time in
declaration order. When every delivery succeeds (producing a message id),
the response is `sent` with exactly one `(chat_id, message_id)` entry per
destination, in destination order, and every destination was attempted.
When the delivery to some destination raises, the destinations after it are
not attempted and the request surfaces a single `500 send_failed` failure
carrying no results list. -/
theorem C1_fanout :
    ∀ (bot : Bot) (image_urls image_url : JVal) (text : String) (pm : JVal)
      (reply_markup : Option JVal) (dests : List JVal) (m : JVal → JVal),
      ((∀ c ∈ dests,
          send_step bot image_urls image_url text pm reply_markup c =
            Except.ok (c, m c)) →
        dispatch (send_step bot image_urls image_url text pm reply_markup) dests =
          HandlerOut.mk (Response.sent (dests.map (fun c => (c, m c)))) dests) ∧
      (∀ (pre : List JVal) (d : JVal) (post : List JVal) (e : String),
        dests = pre ++ d :: post →
        (∀ c ∈ pre,
          send_step bot image_urls image_url text pm reply_markup c =
            Except.ok (c, m c)) →
        send_step bot image_urls image_url text pm reply_markup d =
          Except.error e →
        dispatch (send_step bot image_urls image_url text pm reply_markup) dests =
          HandlerOut.mk (Response.failure 500 "send_failed") (pre ++ [d])) := by
  intro bot image_urls image_url text pm reply_markup dests m
  constructor
  · intro h
    simp only [dispatch,
      send_loop_all_ok (send_step bot image_urls image_url text pm reply_markup)
        m dests h]
  · intro pre d post e hsplit hpre hd
    rw [hsplit]
    simp only [dispatch,
      send_loop_first_error (send_step bot image_urls image_url text pm reply_markup)
        m pre d post e hpre hd]

/-- A Telegram API response carrying message id `5`, for concrete
instantiations. -/
def okResp : JVal := JVal.obj [("result", JVal.obj [("message_id", JVal.num 5)])]

/-- A bot oracle whose deliveries all succeed with `okResp`. -/
def botOk : Bot :=
  Bot.mk (fun _ _ _ _ => Except.ok okResp) (fun _ _ _ _ => Except.ok okResp)
    (fun _ _ _ _ => Except.ok okResp)

/-- A bot oracle whose text delivery raises exactly on chat `"b"`. -/
def botFailB : Bot :=
  Bot.mk
    (fun chat _ _ _ =>
      match chat with
      | JVal.str s => if s = "b" then Except.error "boom" else Except.ok okResp
      | _ => Except.ok okResp)
    (fun _ _ _ _ => Except.ok okResp)
    (fun _ _ _ _ => Except.ok okResp)

/-- Witness for C1: an all-success fan-out over two destinations, and a
fan-out aborted at the second of three destinations. -/
theorem C1_fanout_witness :
    ((∀ c ∈ [JVal.str "a", JVal.str "b"],
        send_step botOk (JVal.arr []) JVal.null "m" JVal.null none c =
          Except.ok (c, JVal.num 5)) ∧
     dispatch (send_step botOk (JVal.arr []) JVal.null "m" JVal.null none)
        [JVal.str "a", JVal.str "b"] =
       HandlerOut.mk
         (Response.sent [(JVal.str "a", JVal.num 5), (JVal.str "b", JVal.num 5)])
         [JVal.str "a", JVal.str "b"]) ∧
    (send_step botFailB (JVal.arr []) JVal.null "m" JVal.null none (JVal.str "b") =
        Except.error "boom" ∧
     dispatch (send_step botFailB (JVal.arr []) JVal.null "m" JVal.null none)
        [JVal.str "a", JVal.str "b", JVal.str "c"] =
       HandlerOut.mk (Response.failure 500 "send_failed")
         [JVal.str "a", JVal.str "b"]) := by
  have hok : ∀ c ∈ [JVal.str "a", JVal.str "b"],
      send_step botOk (JVal.arr []) JVal.null "m" JVal.null none c =
        Except.ok (c, (fun _ => JVal.num 5) c) := by
    intro c hc
    simp only [List.mem_cons, List.not_mem_nil, or_false] at hc
    rcases hc with h | h <;> subst h <;> rfl
  have hpre : ∀ c ∈ [JVal.str "a"],
      send_step botFailB (JVal.arr []) JVal.null "m" JVal.null none c =
        Except.ok (c, (fun _ => JVal.num 5) c) := by
    intro c hc
    simp only [List.mem_cons, List.not_mem_nil, or_false] at hc
    subst hc
    rfl
  refine ⟨⟨hok, ?_⟩, rfl, ?_⟩
  · exact (C1_fanout botOk (JVal.arr []) JVal.null "m" JVal.null none
      [JVal.str "a", JVal.str "b"] (fun _ => JVal.num 5)).1 hok
  · exact (C1_fanout botFailB (JVal.arr []) JVal.null "m" JVal.null none
      [JVal.str "a", JVal.str "b", JVal.str "c"] (fun _ => JVal.num 5)).2
      [JVal.str "a"] (JVal.str "b") [JVal.str "c"] "boom" rfl hpre rfl

/-- Claim C4: for every inbound webhook body, the handler returns one of
the two envelope shapes and never lets an internal failure escape: a parse
failure (malformed JSON) and every processing or external-call exception
yield `{ok: false, error}`, and a completed run yields `{ok: true}`. -/
theorem C4_webhook_envelope :
    ∀ (eff : Action → Except String JVal)
      (render : String → List (String × JVal) → String)
      (callbacks : List CallbackConfig) (commands : List CommandConfig)
      (body : Except String JVal),
      (∀ e, body = Except.error e →
        webhook_handler eff render callbacks commands body = WebhookResp.okFalse e) ∧
      (∀ u e, body = Except.ok u →
        webhook_process render callbacks commands u = Except.error e →
        webhook_handler eff render callbacks commands body = WebhookResp.okFalse e) ∧
      (∀ u acts, body = Except.ok u →
        webhook_process render callbacks commands u = Except.ok acts →
        (run_actions eff acts = Except.ok () →
          webhook_handler eff render callbacks commands body = WebhookResp.okTrue) ∧
        (∀ e, run_actions eff acts = Except.error e →
          webhook_handler eff render callbacks commands body =
            WebhookResp.okFalse e)) ∧
      (webhook_handler eff render callbacks commands body = WebhookResp.okTrue ∨
       ∃ e, webhook_handler eff render callbacks commands body =
         WebhookResp.okFalse e) := by
  intro eff render callbacks commands body
  refine ⟨?_, ?_, ?_, ?_⟩
  · intro e he
    subst he
    rfl
  · intro u e hb hp
    subst hb
    simp only [webhook_handler, hp]
  · intro u acts hb hp
    subst hb
    constructor
    · intro hr
      simp only [webhook_handler, hp, hr]
    · intro e hr
      simp only [webhook_handler, hp, hr]
  · cases body with
    | error e => exact Or.inr ⟨e, rfl⟩
    | ok u =>
      cases hp : webhook_process render callbacks commands u with
      | error e => exact Or.inr ⟨e, by simp only [webhook_handler, hp]⟩
      | ok acts =>
        cases hr : run_actions eff acts with
        | ok x => exact Or.inl (by simp only [webhook_handler, hp, hr])
        | error e => exact Or.inr ⟨e, by simp only [webhook_handler, hp, hr]⟩

/-- An external-effect oracle whose calls all succeed, for concrete
instantiations. -/
def eff0 : Action → Except String JVal := fun _ => Except.ok JVal.null

/-- Witness for C4: a malformed body is reported as `{ok:false}`, and an
update with neither a callback query nor a message completes as
`{ok:true}`. -/
theorem C4_webhook_envelope_witness :
    ((Except.error "bad json" : Except String JVal) = Except.error "bad json" ∧
     webhook_handler eff0 render0 [] [] (Except.error "bad json") =
       WebhookResp.okFalse "bad json") ∧
    (webhook_process render0 [] [] (JVal.obj []) = Except.ok [] ∧
     run_actions eff0 [] = Except.ok () ∧
     webhook_handler eff0 render0 [] [] (Except.ok (JVal.obj [])) =
       WebhookResp.okTrue) :=
  ⟨⟨rfl, (C4_webhook_envelope eff0 render0 [] [] (Except.error "bad json")).1
      "bad json" rfl⟩,
   ⟨rfl, rfl,
    ((C4_webhook_envelope eff0 render0 [] [] (Except.ok (JVal.obj []))).2.2.1
      (JVal.obj []) [] rfl rfl).1 rfl⟩⟩

theorem callback_loop_of_first (cid data user msg : JVal) :
    ∀ (pre : List CallbackConfig) (hdl : CallbackConfig)
      (post : List CallbackConfig),
      (∀ g ∈ pre, data_matches g data = false) → data_matches hdl data = true →
      callback_loop cid data user msg (pre ++ hdl :: post) =
        callback_hit hdl cid data user msg := by
  intro pre
  induction pre with
  | nil =>
    intro hdl post hpre hh
    simp only [List.nil_append, callback_loop, hh, if_true]
  | cons g rest ih =>
    intro hdl post hpre hh
    have hg := hpre g (List.mem_cons_self g rest)
    simp only [List.cons_append, callback_loop, hg, Bool.false_eq_true, if_false]
    exact ih hdl post (fun x hx => hpre x (List.mem_cons_of_mem g hx)) hh

theorem callback_loop_no_match (cid data user msg : JVal) :
    ∀ cbs : List CallbackConfig, (∀ g ∈ cbs, data_matches g data = false) →
      callback_loop cid data user msg cbs = [Action.answer cid none] := by
  intro cbs
  induction cbs with
  | nil => intro h; rfl
  | cons g rest ih =>
    intro h
    have hg := h g (List.mem_cons_self g rest)
    simp only [callback_loop, hg, Bool.false_eq_true, if_false]
    exact ih (fun x hx => h x (List.mem_cons_of_mem g hx))

theorem command_loop_of_first (render : String → List (String × JVal) → String)
    (cmd chat_id : String) (ukvs : List (String × JVal)) :
    ∀ (pre : List CommandConfig) (hdl : CommandConfig) (post : List CommandConfig),
      (∀ g ∈ pre, g.command ≠ cmd) → hdl.command = cmd →
      command_loop render cmd chat_id ukvs (pre ++ hdl :: post) =
        command_hit render hdl cmd chat_id ukvs := by
  intro pre
  induction pre with
  | nil =>
    intro hdl post hpre hh
    simp only [List.nil_append, command_loop, hh, if_true]
  | cons g rest ih =>
    intro hdl post hpre hh
    have hg := hpre g (List.mem_cons_self g rest)
    simp only [List.cons_append, command_loop, hg, if_false]
    exact ih hdl post (fun x hx => hpre x (List.mem_cons_of_mem g hx)) hh

theorem command_loop_no_match (render : String → List (String × JVal) → String)
    (cmd chat_id : String) (ukvs : List (String × JVal)) :
    ∀ cmds : List CommandConfig, (∀ g ∈ cmds, g.command ≠ cmd) →
      command_loop render cmd chat_id ukvs cmds = [] := by
  intro cmds
  induction cmds with
  | nil => intro h; rfl
  | cons g rest ih =>
    intro h
    have hg := h g (List.mem_cons_self g rest)
    simp only [command_loop, hg, if_false]
    exact ih (fun x hx => h x (List.mem_cons_of_mem g hx))

/-- Claim C5: callback and command dispatch is exact-string and
first-match-wins: the first handler in declaration order whose `data`
(respectively `command`) equals the incoming data (respectively the
extracted command token) contributes its actions and no other handler
contributes any; with no matching callback handler the callback is still
acknowledged with an empty acknowledgement, and with no matching command
handler nothing is sent. -/
theorem C5_first_match_dispatch :
    ∀ (cid user msg : JVal) (data : String)
      (render : String → List (String × JVal) → String)
      (cmd chat_id : String) (ukvs : List (String × JVal)),
      (∀ (pre : List CallbackConfig) (hdl : CallbackConfig)
         (post : List CallbackConfig),
         (∀ g ∈ pre, g.data ≠ data) → hdl.data = data →
         callback_loop cid (JVal.str data) user msg (pre ++ hdl :: post) =
           callback_hit hdl cid (JVal.str data) user msg) ∧
      (∀ cbs : List CallbackConfig, (∀ g ∈ cbs, g.data ≠ data) →
        callback_loop cid (JVal.str data) user msg cbs =
          [Action.answer cid none]) ∧
      (∀ (pre : List CommandConfig) (hdl : CommandConfig)
         (post : List CommandConfig),
         (∀ g ∈ pre, g.command ≠ cmd) → hdl.command = cmd →
         command_loop render cmd chat_id ukvs (pre ++ hdl :: post) =
           command_hit render hdl cmd chat_id ukvs) ∧
      (∀ cmds : List CommandConfig, (∀ g ∈ cmds, g.command ≠ cmd) →
        command_loop render cmd chat_id ukvs cmds = []) := by
  intro cid user msg data render cmd chat_id ukvs
  refine ⟨?_, ?_, ?_, ?_⟩
  · intro pre hdl post hpre hh
    refine callback_loop_of_first cid (JVal.str data) user msg pre hdl post ?_ ?_
    · intro g hg
      have := hpre g hg
      simp only [data_matches, beq_eq_false_iff_ne]
      exact fun hx => this (hx ▸ rfl)
    · simp only [data_matches, beq_iff_eq]
      exact hh.symm
  · intro cbs hcbs
    refine callback_loop_no_match cid (JVal.str data) user msg cbs ?_
    intro g hg
    have := hcbs g hg
    simp only [data_matches, beq_eq_false_iff_ne]
    exact fun hx => this (hx ▸ rfl)
  · exact command_loop_of_first render cmd chat_id ukvs
  · exact command_loop_no_match render cmd chat_id ukvs

/-- Witness for C5: a duplicate-`data` callback list where the first
declared handler wins; a no-match callback still acknowledged; a
duplicate-`command` command list where the first declared handler wins; and
a no-match command doing nothing. -/
theorem C5_first_match_dispatch_witness :
    ((∀ g ∈ [CallbackConfig.mk "a" none none], g.data ≠ "d") ∧
     (CallbackConfig.mk "d" (some "first") none).data = "d" ∧
     callback_loop (JVal.num 1) (JVal.str "d") (JVal.obj []) (JVal.obj [])
        [CallbackConfig.mk "a" none none, CallbackConfig.mk "d" (some "first") none,
         CallbackConfig.mk "d" (some "second") none] =
       callback_hit (CallbackConfig.mk "d" (some "first") none) (JVal.num 1)
         (JVal.str "d") (JVal.obj []) (JVal.obj [])) ∧
    ((∀ g ∈ [CallbackConfig.mk "a" none none], g.data ≠ "zzz") ∧
     callback_loop (JVal.num 1) (JVal.str "zzz") (JVal.obj []) (JVal.obj [])
        [CallbackConfig.mk "a" none none] = [Action.answer (JVal.num 1) none]) ∧
    ((∀ g ∈ [CommandConfig.mk "/other" none none []], g.command ≠ "/start") ∧
     (CommandConfig.mk "/start" (some "hi") none []).command = "/start" ∧
     command_loop render0 "/start" "7" []
        [CommandConfig.mk "/other" none none [],
         CommandConfig.mk "/start" (some "hi") none [],
         CommandConfig.mk "/start" (some "bye") none []] =
       command_hit render0 (CommandConfig.mk "/start" (some "hi") none [])
         "/start" "7" []) ∧
    ((∀ g ∈ [CommandConfig.mk "/other" none none []], g.command ≠ "/start") ∧
     command_loop render0 "/start" "7" [] [CommandConfig.mk "/other" none none []] =
       []) := by
  have h1 : ∀ g ∈ [CallbackConfig.mk "a" none none], g.data ≠ "d" := by
    intro g hg
    simp only [List.mem_cons, List.not_mem_nil, or_false] at hg
    subst hg
    decide
  have h2 : ∀ g ∈ [CallbackConfig.mk "a" none none], g.data ≠ "zzz" := by
    intro g hg
    simp only [List.mem_cons, List.not_mem_nil, or_false] at hg
    subst hg
    decide
  have h3 : ∀ g ∈ [CommandConfig.mk "/other" none none []], g.command ≠ "/start" := by
    intro g hg
    simp only [List.mem_cons, List.not_mem_nil, or_false] at hg
    subst hg
    decide
  refine ⟨⟨h1, rfl, ?_⟩, ⟨h2, ?_⟩, ⟨h3, rfl, ?_⟩, ⟨h3, ?_⟩⟩
  · exact (C5_first_match_dispatch (JVal.num 1) (JVal.obj []) (JVal.obj []) "d"
      render0 "/start" "7" []).1 [CallbackConfig.mk "a" none none]
      (CallbackConfig.mk "d" (some "first") none)
      [CallbackConfig.mk "d" (some "second") none] h1 rfl
  · exact (C5_first_match_dispatch (JVal.num 1) (JVal.obj []) (JVal.obj []) "zzz"
      render0 "/start" "7" []).2.1 [CallbackConfig.mk "a" none none] h2
  · exact (C5_first_match_dispatch (JVal.num 1) (JVal.obj []) (JVal.obj []) "d"
      render0 "/start" "7" []).2.2.1 [CommandConfig.mk "/other" none none []]
      (CommandConfig.mk "/start" (some "hi") none [])
      [CommandConfig.mk "/start" (some "bye") none []] h3 rfl
  · exact (C5_first_match_dispatch (JVal.num 1) (JVal.obj []) (JVal.obj []) "d"
      render0 "/start" "7" []).2.2.2 [CommandConfig.mk "/other" none none []] h3

/-- Claim C6 (amended): when the first matching callback handler carries a
non-empty forwarding URL, the webhook handler POSTs exactly
`{callback_data, user, message}` to it after acknowledging the callback.
The POST is awaited and its returned response is never inspected, so a POST
that completes — with any status — leaves the webhook response at
`{ok: true}`; but a POST that raises a transport exception is caught by the
outer `try` of the handler and turns the response into `{ok: false, error}`
(still a transport-success envelope). -/
theorem C6_forwarding_post :
    ∀ (eff : Action → Except String JVal)
      (render : String → List (String × JVal) → String)
      (cmds : List CommandConfig) (cb_kvs ukvs : List (String × JVal))
      (cid : JVal) (d : String) (pre : List CallbackConfig)
      (hdl : CallbackConfig) (post : List CallbackConfig) (u : String) (r1 : JVal),
      lookup cb_kvs "id" = some cid →
      pyGetD cb_kvs "data" (JVal.str "") = JVal.str d →
      pyGetD cb_kvs "from" (JVal.obj []) = JVal.obj ukvs →
      (∀ g ∈ pre, g.data ≠ d) → hdl.data = d → hdl.url = some u → u ≠ "" →
      eff (Action.answer cid hdl.response) = Except.ok r1 →
      ((∀ r2, eff (Action.post u (JVal.obj
          [("callback_data", JVal.str d), ("user", JVal.obj ukvs),
           ("message", pyGetD cb_kvs "message" (JVal.obj []))])) = Except.ok r2 →
        webhook_handler eff render (pre ++ hdl :: post) cmds
          (Except.ok (JVal.obj [("callback_query", JVal.obj cb_kvs)])) =
          WebhookResp.okTrue) ∧
       (∀ e, eff (Action.post u (JVal.obj
          [("callback_data", JVal.str d), ("user", JVal.obj ukvs),
           ("message", pyGetD cb_kvs "message" (JVal.obj []))])) =
            Except.error e →
        webhook_handler eff render (pre ++ hdl :: post) cmds
          (Except.ok (JVal.obj [("callback_query", JVal.obj cb_kvs)])) =
          WebhookResp.okFalse e)) := by
  intro eff render cmds cb_kvs ukvs cid d pre hdl post u r1
  intro hid hdata hfrom hpre hmatch hurl hu hans
  have hloop : callback_loop cid (JVal.str d) (JVal.obj ukvs)
      (pyGetD cb_kvs "message" (JVal.obj [])) (pre ++ hdl :: post) =
      callback_hit hdl cid (JVal.str d) (JVal.obj ukvs)
        (pyGetD cb_kvs "message" (JVal.obj [])) := by
    refine callback_loop_of_first cid (JVal.str d) (JVal.obj ukvs)
      (pyGetD cb_kvs "message" (JVal.obj [])) pre hdl post ?_ ?_
    · intro g hg
      have := hpre g hg
      simp only [data_matches, beq_eq_false_iff_ne]
      exact fun hx => this (hx ▸ rfl)
    · simp only [data_matches, beq_iff_eq]
      exact hmatch.symm
  have hhit : callback_hit hdl cid (JVal.str d) (JVal.obj ukvs)
      (pyGetD cb_kvs "message" (JVal.obj [])) =
      [Action.answer cid hdl.response,
       Action.post u (JVal.obj
         [("callback_data", JVal.str d), ("user", JVal.obj ukvs),
          ("message", pyGetD cb_kvs "message" (JVal.obj []))])] := by
    simp only [callback_hit, hurl, if_neg hu]
  have hbranch : webhook_process render (pre ++ hdl :: post) cmds
      (JVal.obj [("callback_query", JVal.obj cb_kvs)]) =
      Except.ok [Action.answer cid hdl.response,
        Action.post u (JVal.obj
          [("callback_data", JVal.str d), ("user", JVal.obj ukvs),
           ("message", pyGetD cb_kvs "message" (JVal.obj []))])] := by
    simp [webhook_process, lookup, callback_branch, hid, hdata, hfrom, hloop,
      hhit]
  constructor
  · intro r2 hp
    simp only [webhook_handler, hbranch, run_actions, hans, hp]
  · intro e hp
    simp only [webhook_handler, hbranch, run_actions, hans, hp]

/-- A callback handler with a forwarding URL, for concrete instantiations. -/
def cbFwd : CallbackConfig := CallbackConfig.mk "d" none (some "http://x")

/-- A callback-query update matching `cbFwd`, for concrete instantiations. -/
def updateCb : JVal :=
  JVal.obj [("callback_query",
    JVal.obj [("id", JVal.num 1), ("data", JVal.str "d")])]

/-- Witness for C6: with an effect oracle whose POST completes, the webhook
response stays `{ok: true}`. -/
theorem C6_forwarding_post_witness :
    lookup [("id", JVal.num 1), ("data", JVal.str "d")] "id" = some (JVal.num 1) ∧
    cbFwd.url = some "http://x" ∧
    webhook_handler eff0 render0 [cbFwd] [] (Except.ok updateCb) =
      WebhookResp.okTrue :=
  ⟨rfl, rfl,
   ((C6_forwarding_post eff0 render0 []
      [("id", JVal.num 1), ("data", JVal.str "d")] [] (JVal.num 1) "d" [] cbFwd []
      "http://x" JVal.null rfl rfl rfl
      (fun g hg => absurd hg (List.not_mem_nil g)) rfl rfl (by decide) rfl).1
     JVal.null rfl)⟩

/-- An effect oracle whose side-channel POST raises, all other calls
succeeding. -/
def effPostFail : Action → Except String JVal := fun a =>
  match a with
  | Action.post _ _ => Except.error "ConnectionError"
  | _ => Except.ok JVal.null

/-- Counterexample for C6 as frozen: a raising side-channel POST does
change the webhook response away from `{ok: true}` — the exception is
caught by the outer handler and reported as `{ok: false, error}`. -/
theorem C6_counterexample :
    webhook_handler effPostFail render0 [cbFwd] [] (Except.ok updateCb) =
      WebhookResp.okFalse "ConnectionError" ∧
    WebhookResp.okFalse "ConnectionError" ≠ WebhookResp.okTrue :=
  ⟨rfl, fun h => WebhookResp.noConfusion h⟩

end TeleNotif
